import Mathlib

/-!
Verification of the S/MIME signature verification engine of
RocketSMIMEBrowserExtension (src/modules/smimeVerificationService.js,
src/config/constants.js) against its natural-language specification.

JavaScript values are embedded shallowly: strings become `String`,
`undefined`/`null`-able values become `Option`, millisecond timestamps
become `Int`, thrown exceptions become `Except Unit`, and the promise
returned by the external cryptographic `verify` call becomes
`Except Unit (Option Bool)` (rejection, or resolution with
`true`/`false`/`undefined`).  Outcomes of external library calls
(ASN.1 decoding, CMS interpretation, cryptographic verification) are
supplied by an explicit environment record.
-/

namespace RocketSmime

/-- JavaScript strict equality `a === b` between a value that may be
`undefined`/`null` (`none`) and another such value: equal only when both
are present and the strings coincide (`undefined === null` is `false`). -/
def jsStrictEq : Option String → Option String → Bool
  | some a, some b => a == b
  | _, _ => false

/-- `Array.prototype.indexOf` specialised to string arrays, searching for a
value that may be `undefined` (in which case nothing matches). -/
def jsArrayIndexOfAux (x : Option String) : List String → Int → Int
  | [], _ => -1
  | a :: rest, i => if x == some a then i else jsArrayIndexOfAux x rest (i + 1)

/-- `arr.indexOf(x)` for a string array `arr`. -/
def jsArrayIndexOf (arr : List String) (x : Option String) : Int :=
  jsArrayIndexOfAux x arr 0

/-- Does `needle` occur at the start of `hay`? -/
def charsStartWith : List Char → List Char → Bool
  | [], _ => true
  | _ :: _, [] => false
  | a :: as, b :: bs => a == b && charsStartWith as bs

/-- Does `needle` occur anywhere inside `hay`? -/
def charsContain (needle : List Char) : List Char → Bool
  | [] => needle.isEmpty
  | c :: rest => charsStartWith needle (c :: rest) || charsContain needle rest

/-- `hay.indexOf(needle) !== -1` for JavaScript strings: substring search. -/
def jsStringContains (hay needle : String) : Bool :=
  charsContain needle.data hay.data

/-- `raw.replace(/\n/g, "\r\n")`: every line-feed character is replaced by
the two-character sequence CR LF (carriage returns are left untouched). -/
def replaceLfWithCrlf : List Char → List Char
  | [] => []
  | c :: rest =>
      if c = '\n' then '\r' :: '\n' :: replaceLfWithCrlf rest
      else c :: replaceLfWithCrlf rest

/-- The canonicalization applied to the raw signed body before it is handed
to the cryptographic verifier (line 70 of the service). -/
def crlfCanonicalize (s : String) : String :=
  String.mk (replaceLfWithCrlf s.data)

/-- Helper for `crlfLineEndings`: every `'\n'` in the list is allowed only
when the character standing immediately before it (initially `prev`) is
`'\r'`. -/
def crlfOkFrom (prev : Char) : List Char → Bool
  | [] => true
  | c :: rest => (c != '\n' || prev == '\r') && crlfOkFrom c rest

/-- A character list uses CRLF line endings: no leading `'\n'`, and every
`'\n'` is immediately preceded by `'\r'`. -/
def crlfLineEndings : List Char → Bool
  | [] => true
  | c :: rest => c != '\n' && crlfOkFrom c rest

/-! ## Constants (src/config/constants.js, `smimeSpecification`) -/

/-- Allowed content-type values of the signature node. -/
def signatureNodeContentTypeValues : List String :=
  ["application/x-pkcs7-signature", "application/pkcs7-signature"]

/-- Required root content type. Note: a JavaScript STRING, against which the
service runs `String.prototype.indexOf` (a substring search). -/
def rootNodeContentTypeValue : String := "multipart/signed"

/-- Required root content-type `protocol` parameter. -/
def rootNodeContentTypeProtocol : String := "application/pkcs7-signature"

/-- Accepted `micalg` content-type parameter values (a JavaScript array,
searched with `Array.prototype.indexOf`, i.e. exact element equality). -/
def rootNodeContentTypeMessageIntegrityCheckAlgorithms : List String :=
  ["md5", "sha-1", "sha-224", "sha-256", "sha-384", "sha-512", "unknown"]

/-! ## Result data model -/

/-- The three result codes of `smimeVerificationResultCodes`. -/
inductive ResultCode where
  | VERIFICATION_OK
  | CANNOT_VERIFY
  | FRAUD_WARNING
deriving DecidableEq, Repr

/-- The result record produced by `verifyMessageSignature`.  `signer` is a
JavaScript value that is either a string (`some`) or `null` (`none`);
`code` is `none` until a terminal branch assigns one of the three codes. -/
structure VerificationResult where
  mailId : String
  success : Bool
  code : Option ResultCode
  message : String
  signer : Option String
deriving DecidableEq, Repr

/-- An apostrophe, kept out of string literals. -/
def apos : String := String.mk [Char.ofNat 39]

/-- Message of the certificate-expiration branch. -/
def expiredCertificateMessage : String :=
  "The signature" ++ apos ++ "s certificate has expired. Be wary of message content."

/-- Message of the From-mismatch branch. -/
def fromMismatchMessage : String :=
  "Fraud warning: The \"From\" email address does not match the signature" ++ apos ++ "s email address."

/-- Modelled from the spec: `getResultPrototype`
(src/modules/resultPrototype.js is not under src/).  Section 3 of the spec
prescribes construction "with default/neutral values": `success` false, no
code set, empty message, and `signer` "empty if not determined". -/
def getResultPrototype : VerificationResult :=
  { mailId := "", success := false, code := none, message := "", signer := some "" }

/-! ## CMS data model -/

/-- One entry of a certificate subject's `typesAndValues`: an attribute
type (an OID string) and the attribute's string value. -/
structure AttributeTypeAndValue where
  type : String
  value : String
deriving DecidableEq, Repr

/-- A certificate of the decoded SignedData: validity window in epoch
milliseconds and the subject attributes. -/
structure Certificate where
  notBefore : Int
  notAfter : Int
  subject : List AttributeTypeAndValue
deriving DecidableEq, Repr

/-- The decoded CMS SignedData structure: its ordered certificate list. -/
structure SignedData where
  certificates : List Certificate
deriving DecidableEq, Repr

/-! ## Parsed MIME message data model -/

/-- Content-type parameters of a MIME node; each parameter may be absent. -/
structure ContentTypeParams where
  protocol : Option String
  micalg : Option String
deriving DecidableEq, Repr

/-- A parsed content type: its value and (possibly absent) parameters. -/
structure NodeContentType where
  value : String
  params : Option ContentTypeParams
deriving DecidableEq, Repr

/-- The root MIME node as far as the envelope check reads it:
`contentType` may be absent, and `_childNodes` is either present (a truthy
array) or absent. -/
structure RootNode where
  contentType : Option NodeContentType
  hasChildNodes : Bool
deriving DecidableEq, Repr

/-- The signature node (content node "2"). -/
structure SignatureNode where
  contentType : NodeContentType
deriving DecidableEq, Repr

/-- One parsed mailbox of an address header; its `address` property may be
absent (`undefined`). -/
structure FromMailbox where
  address : Option String
deriving DecidableEq, Repr

/-- One parsed `From` header instance: a list of mailboxes. -/
structure FromHeader where
  value : List FromMailbox
deriving DecidableEq, Repr

/-- The parsed message as read by the service: the root node, the optional
signature node (`parser.getNode("2")`), the raw text of body node "1", and
the parsed `From` headers (empty list when the header is missing). -/
structure ParsedMessage where
  rootNode : RootNode
  signatureNode : Option SignatureNode
  node1raw : String
  fromHeaders : List FromHeader
deriving Repr

/-! ## Envelope check (lines 151-176 of the service) -/

/-- `rootNodeContentTypeValue.indexOf(rootNode.contentType.value) !== -1`:
a SUBSTRING test of the node's content-type value against the constant
string "multipart/signed". -/
def isRootNodeContentTypeValueCorrect (ct : NodeContentType) : Bool :=
  jsStringContains rootNodeContentTypeValue ct.value

/-- `rootNode.contentType.params.protocol === constant`. -/
def isRootNodeContentTypeProtocolCorrect (ps : ContentTypeParams) : Bool :=
  ps.protocol == some rootNodeContentTypeProtocol

/-- `algorithms.indexOf(rootNode.contentType.params.micalg) !== -1`: exact,
case-sensitive membership of the `micalg` parameter in the fixed array. -/
def isRootNodeContentTypeMicalgCorrect (ps : ContentTypeParams) : Bool :=
  jsArrayIndexOf rootNodeContentTypeMessageIntegrityCheckAlgorithms ps.micalg != -1

/-- `signatureNodeContentTypeValues.indexOf(signatureNode.contentType.value) !== -1`. -/
def isSignatureNodeContentTypeValueCorrect (sn : SignatureNode) : Bool :=
  jsArrayIndexOf signatureNodeContentTypeValues (some sn.contentType.value) != -1

/-- `isValidSmimeEmail(rootNode, signatureNode)`: the conjunction of the
truthiness guards and the four content-type checks. -/
def isValidSmimeEmail (rootNode : RootNode) (signatureNode : Option SignatureNode) : Bool :=
  match rootNode.contentType, signatureNode with
  | some ct, some sn =>
      match ct.params with
      | some ps =>
          rootNode.hasChildNodes
            && isRootNodeContentTypeValueCorrect ct
            && isRootNodeContentTypeProtocolCorrect ps
            && isRootNodeContentTypeMicalgCorrect ps
            && isSignatureNodeContentTypeValueCorrect sn
      | none => false
  | _, _ => false

/-! ## Signer email extraction, expiry, verification helpers -/

/-- `fetchSignerEmail(signedData)`: iterates over ALL certificates and all
of their subject attributes, overwriting the accumulator on every attribute
whose type equals the signer-email attribute type; the result is therefore
the LAST matching attribute value in iteration order (`null`, i.e. `none`,
when no attribute matches). -/
def fetchSignerEmail (sd : SignedData) (emailType : String) : Option String :=
  sd.certificates.foldl
    (fun acc cert =>
      cert.subject.foldl
        (fun acc2 tv => if tv.type == emailType then some tv.value else acc2)
        acc)
    none

/-- `isAnyCertificateExpired(signedData)`: some certificate's validity
window, widened by the configured margin, does not contain `now`. -/
def isAnyCertificateExpired (sd : SignedData) (marginHours : Int) (now : Int) : Bool :=
  let marginMilliseconds := marginHours * 60 * 60 * 1000
  sd.certificates.any fun certificate =>
    decide (now < certificate.notBefore - marginMilliseconds)
      || decide (now > certificate.notAfter + marginMilliseconds)

/-- `isVerificationFailed(verificationResult)`: `true` only when the resolved
value is defined and strictly equal to `false`. -/
def isVerificationFailed (verificationResult : Option Bool) : Bool :=
  match verificationResult with
  | none => false
  | some b => if b = false then true else false

/-- `isFromAddressCorrect(parser, signerEmail)`: reads
`parser.node.headers.from[0].value[0].address` (any missing step of the
lookup chain throws a TypeError, modelled as `Except.error`) and compares it
to `signerEmail` with strict equality. -/
def isFromAddressCorrect (msg : ParsedMessage) (signerEmail : Option String) : Except Unit Bool :=
  match msg.fromHeaders with
  | [] => .error ()
  | fh :: _ =>
      match fh.value with
      | [] => .error ()
      | mb :: _ => .ok (jsStrictEq mb.address signerEmail)

/-! ## The verification pipeline (lines 20-105 of the service) -/

/-- The tail of the promise-resolution callback (lines 84-94): the identity
check between the From address and the signer email; a TypeError thrown by
the header lookup is caught by the promise `.catch` handler (lines 95-103),
which produces the CANNOT_VERIFY "Unknown error" result. -/
def identityCheckStage (msg : ParsedMessage) (signerEmail : Option String)
    (result : VerificationResult) : VerificationResult :=
  match isFromAddressCorrect msg signerEmail with
  | .error _ =>
      { result with success := false, code := some ResultCode.CANNOT_VERIFY,
                    message := "Message cannot be verified: Unknown error." }
  | .ok b =>
      if b then
        { result with success := true, code := some ResultCode.VERIFICATION_OK,
                      message := "Message includes a valid digital signature for the sender." }
      else
        { result with success := false, code := some ResultCode.FRAUD_WARNING,
                      message := fromMismatchMessage }

/-- The promise-resolution callback of `cmsSignedSimpl.verify` (lines
74-94): assign `result.signer`, test `isVerificationFailed`, then run the
identity check. -/
def thenCallback (msg : ParsedMessage) (signerEmail : Option String)
    (result0 : VerificationResult) (v : Option Bool) : VerificationResult :=
  let result := { result0 with signer := signerEmail }
  if isVerificationFailed v then
    { result with success := false, code := some ResultCode.FRAUD_WARNING,
                  message := "Fraud warning: Message failed verification with signature." }
  else
    identityCheckStage msg signerEmail result

/-- The environment of one verification call: the wall clock, the two
configuration constants read from `smimeSpecificationConstants`
(`expirationDateMarginHours` and `certificateTypeForSignerEmail`, the
signer-email attribute type), and the outcomes of the external library
calls: the `asn1js.fromBER` offset, the CMS interpretation outcome
(`none` when the ContentInfo/SignedData constructors throw), and the
cryptographic `verify` promise as a function of the canonicalized body
bytes handed to it. -/
structure Env where
  now : Int
  expirationDateMarginHours : Int
  certificateTypeForSignerEmail : String
  asn1Offset : Int
  cmsResult : Option SignedData
  cryptoVerify : String → Except Unit (Option Bool)

/-- `verifyMessageSignature(rawMessage, mailId)` over the already-parsed
message and the environment of external outcomes.  Mirrors lines 20-105 of
the service: envelope check, decode `try`/`catch`, certificate expiry
check, CRLF canonicalization of body node "1", cryptographic verification
with its resolution and rejection handlers. -/
def verifyMessageSignature (env : Env) (msg : ParsedMessage) (mailId : String) :
    VerificationResult :=
  let result := { getResultPrototype with mailId := mailId }
  if isValidSmimeEmail msg.rootNode msg.signatureNode = false then
    { result with success := false, code := some ResultCode.CANNOT_VERIFY,
                  message := "Message is not digitally signed." }
  else if env.asn1Offset = -1 then
    { result with success := false, code := some ResultCode.FRAUD_WARNING,
                  message := "Fraud warning: Invalid digital signature." }
  else
    match env.cmsResult with
    | none =>
        { result with success := false, code := some ResultCode.FRAUD_WARNING,
                      message := "Fraud warning: Invalid digital signature." }
    | some cmsSignedSimpl =>
        let signerEmail := fetchSignerEmail cmsSignedSimpl env.certificateTypeForSignerEmail
        if isAnyCertificateExpired cmsSignedSimpl env.expirationDateMarginHours env.now then
          { result with success := false, code := some ResultCode.FRAUD_WARNING,
                        message := expiredCertificateMessage }
        else
          let signedDataBuffer := crlfCanonicalize msg.node1raw
          match env.cryptoVerify signedDataBuffer with
          | .error _ =>
              { result with success := false, code := some ResultCode.CANNOT_VERIFY,
                            message := "Message cannot be verified: Unknown error." }
          | .ok v => thenCallback msg signerEmail result v

/-! ## Call sessions (for independence of calls) -/

/-- The input of one `verifyMessageSignature` call: the environment of
external outcomes, the parsed message, and the mail id. -/
structure CallInput where
  env : Env
  msg : ParsedMessage
  mailId : String

/-- Run one call. -/
def runCall (c : CallInput) : VerificationResult :=
  verifyMessageSignature c.env c.msg c.mailId

/-- Run a sequence of calls; the service class holds no instance state, so
a session is simply the list of per-call results. -/
def runSession (calls : List CallInput) : List VerificationResult :=
  calls.map runCall

/-! ## Specification-side characterization of `fetchSignerEmail` -/

/-- All subject attributes of the envelope, in certificate order. -/
def allSubjectAttrs (sd : SignedData) : List AttributeTypeAndValue :=
  sd.certificates.foldr (fun c acc => c.subject ++ acc) []

/-- The value of the LAST subject attribute (across all certificates, in
iteration order) whose type is the signer-email attribute type. -/
def lastEmailAttr (sd : SignedData) (emailType : String) : Option String :=
  ((allSubjectAttrs sd).reverse.find? (fun tv => tv.type == emailType)).map
    (fun tv => tv.value)

/-! ## Concrete fixtures used to instantiate the theorems -/

/-- The emailAddress attribute type (PKCS#9 e-mail OID), used as the value
of `certificateTypeForSignerEmail` in the concrete fixtures. -/
def emailAttributeType : String := "1.2.840.113549.1.9.1"

/-- A subject attribute carrying an email address. -/
def exSubjectEmail (v : String) : AttributeTypeAndValue :=
  { type := emailAttributeType, value := v }

/-- A certificate valid from 1970 until 2100, carrying one email subject
attribute. -/
def exCertOf (v : String) : Certificate :=
  { notBefore := 0, notAfter := 4102444800000, subject := [exSubjectEmail v] }

/-- A certificate whose validity ended one second into 1970. -/
def exExpiredCert : Certificate :=
  { notBefore := 0, notAfter := 1000, subject := [exSubjectEmail "a@x"] }

/-- A one-certificate envelope, signer email a@x. -/
def exEnvelope : SignedData := { certificates := [exCertOf "a@x"] }

/-- A two-certificate envelope: the first certificate's email is a@x, the
second certificate's email is b@x. -/
def exEnvelopeTwo : SignedData := { certificates := [exCertOf "a@x", exCertOf "b@x"] }

/-- A one-certificate envelope whose certificate is long expired. -/
def exEnvelopeExpired : SignedData := { certificates := [exExpiredCert] }

/-- Structurally correct content-type parameters. -/
def exGoodParams : ContentTypeParams :=
  { protocol := some "application/pkcs7-signature", micalg := some "sha-256" }

/-- A structurally correct multipart/signed root node. -/
def exGoodRoot : RootNode :=
  { contentType := some { value := "multipart/signed", params := some exGoodParams },
    hasChildNodes := true }

/-- A structurally correct signature node. -/
def exSigNode : SignatureNode :=
  { contentType := { value := "application/pkcs7-signature", params := none } }

/-- A structurally correct message whose From header holds one mailbox with
the given address. -/
def exMsgFrom (addr : String) : ParsedMessage :=
  { rootNode := exGoodRoot, signatureNode := some exSigNode, node1raw := "body\n",
    fromHeaders := [{ value := [{ address := some addr }] }] }

/-- An environment at a 2023 wall clock with a 2-hour margin, successful
ASN.1/CMS decode producing `sd`, and cryptographic outcome `cv`. -/
def exEnvWith (sd : SignedData) (cv : String → Except Unit (Option Bool)) : Env :=
  { now := 1700000000000, expirationDateMarginHours := 2,
    certificateTypeForSignerEmail := emailAttributeType,
    asn1Offset := 0, cmsResult := some sd, cryptoVerify := cv }

/-- A message whose root content type is the bare string "multipart" (a
strict substring of "multipart/signed") and is otherwise structurally
correct. -/
def exSubstringRoot : RootNode :=
  { contentType := some { value := "multipart", params := some exGoodParams },
    hasChildNodes := true }

/-- See `exSubstringRoot`: a message around it. -/
def exMsgSubstringType : ParsedMessage :=
  { rootNode := exSubstringRoot, signatureNode := some exSigNode, node1raw := "body\n",
    fromHeaders := [{ value := [{ address := some "a@x" }] }] }

/-- The root node of an unsigned plain-text message. -/
def exPlainRoot : RootNode :=
  { contentType := some { value := "text/plain", params := none }, hasChildNodes := false }

/-- An unsigned plain-text message: no signature node, no parameters. -/
def exPlainMsg : ParsedMessage :=
  { rootNode := exPlainRoot, signatureNode := none, node1raw := "hello",
    fromHeaders := [{ value := [{ address := some "a@x" }] }] }

/-- An environment in which the ASN.1 parser fails (`fromBER` offset -1). -/
def exEnvBadAsn1 : Env :=
  { now := 1700000000000, expirationDateMarginHours := 2,
    certificateTypeForSignerEmail := emailAttributeType,
    asn1Offset := -1, cmsResult := none, cryptoVerify := fun _ => .error () }

/-! ## Helper lemmas -/

theorem thenCallback_signer (msg : ParsedMessage) (s : Option String)
    (r : VerificationResult) (v : Option Bool) :
    (thenCallback msg s r v).signer = s := by
  simp only [thenCallback, identityCheckStage]
  split
  · rfl
  · split
    · rfl
    · split <;> rfl

theorem thenCallback_success_code (msg : ParsedMessage) (s : Option String)
    (r : VerificationResult) (v : Option Bool) :
    (thenCallback msg s r v).success = true →
      (thenCallback msg s r v).code = some ResultCode.VERIFICATION_OK := by
  simp only [thenCallback, identityCheckStage]
  split
  · intro h; exact absurd h (by simp)
  · split
    · intro h; exact absurd h (by simp)
    · split
      · intro _; rfl
      · intro h; exact absurd h (by simp)

/-- Unfolding of the pipeline once the envelope check passed and the
ASN.1/CMS decode succeeded. -/
theorem verify_unfold (env : Env) (msg : ParsedMessage) (mailId : String) (cms : SignedData)
    (hvalid : isValidSmimeEmail msg.rootNode msg.signatureNode = true)
    (hoff : env.asn1Offset ≠ -1)
    (hcms : env.cmsResult = some cms) :
    verifyMessageSignature env msg mailId =
      (if isAnyCertificateExpired cms env.expirationDateMarginHours env.now then
        { getResultPrototype with mailId := mailId, success := false,
                                  code := some ResultCode.FRAUD_WARNING,
                                  message := expiredCertificateMessage }
      else
        match env.cryptoVerify (crlfCanonicalize msg.node1raw) with
        | .error _ =>
            { getResultPrototype with mailId := mailId, success := false,
                                      code := some ResultCode.CANNOT_VERIFY,
                                      message := "Message cannot be verified: Unknown error." }
        | .ok v =>
            thenCallback msg (fetchSignerEmail cms env.certificateTypeForSignerEmail)
              { getResultPrototype with mailId := mailId } v) := by
  unfold verifyMessageSignature
  rw [hvalid, hcms]
  simp [hoff]

theorem expired_of_mem (sd : SignedData) (marginHours now : Int) (c : Certificate)
    (hc : c ∈ sd.certificates)
    (hout : now < c.notBefore - marginHours * 60 * 60 * 1000
        ∨ now > c.notAfter + marginHours * 60 * 60 * 1000) :
    isAnyCertificateExpired sd marginHours now = true := by
  unfold isAnyCertificateExpired
  simp only [List.any_eq_true, Bool.or_eq_true, decide_eq_true_eq]
  exact ⟨c, hc, hout⟩

/-- The structural-rejection branch in full. -/
theorem verify_invalid_envelope (env : Env) (msg : ParsedMessage) (mailId : String)
    (h : isValidSmimeEmail msg.rootNode msg.signatureNode = false) :
    verifyMessageSignature env msg mailId =
      { mailId := mailId, success := false, code := some ResultCode.CANNOT_VERIFY,
        message := "Message is not digitally signed.", signer := some "" } := by
  unfold verifyMessageSignature
  rw [h]
  simp [getResultPrototype]

/-- The decode-failure branch in full. -/
theorem verify_decode_failure (env : Env) (msg : ParsedMessage) (mailId : String)
    (hvalid : isValidSmimeEmail msg.rootNode msg.signatureNode = true)
    (hdec : env.asn1Offset = -1 ∨ env.cmsResult = none) :
    verifyMessageSignature env msg mailId =
      { mailId := mailId, success := false, code := some ResultCode.FRAUD_WARNING,
        message := "Fraud warning: Invalid digital signature.", signer := some "" } := by
  unfold verifyMessageSignature
  rw [hvalid]
  rcases hdec with h | h
  · simp [h, getResultPrototype]
  · by_cases ho : env.asn1Offset = -1
    · simp [ho, getResultPrototype]
    · simp [ho, h, getResultPrototype]

/-! ## Claim theorems -/

/-- C3: once the envelope is decoded, if the current time lies strictly
outside `[notBefore - margin, notAfter + margin]` for ANY certificate of
the envelope, the verification terminates with `FRAUD_WARNING` and the
expiration message, for every possible cryptographic outcome (the
signature verifier is never consulted). -/
theorem c3_certificate_expiry_rejection (env : Env) (msg : ParsedMessage) (mailId : String)
    (cms : SignedData) (c : Certificate)
    (hvalid : isValidSmimeEmail msg.rootNode msg.signatureNode = true)
    (hoff : env.asn1Offset ≠ -1)
    (hcms : env.cmsResult = some cms)
    (hc : c ∈ cms.certificates)
    (hout : env.now < c.notBefore - env.expirationDateMarginHours * 60 * 60 * 1000
        ∨ env.now > c.notAfter + env.expirationDateMarginHours * 60 * 60 * 1000) :
    (verifyMessageSignature env msg mailId).code = some ResultCode.FRAUD_WARNING
    ∧ (verifyMessageSignature env msg mailId).message = expiredCertificateMessage
    ∧ (verifyMessageSignature env msg mailId).success = false := by
  have hexp := expired_of_mem cms env.expirationDateMarginHours env.now c hc hout
  rw [verify_unfold env msg mailId cms hvalid hoff hcms, if_pos hexp]
  exact ⟨rfl, rfl, rfl⟩

theorem c3_certificate_expiry_rejection_witness :
    (verifyMessageSignature (exEnvWith exEnvelopeExpired (fun _ => Except.ok (some true)))
        (exMsgFrom "a@x") "m").code = some ResultCode.FRAUD_WARNING
    ∧ (verifyMessageSignature (exEnvWith exEnvelopeExpired (fun _ => Except.ok (some true)))
        (exMsgFrom "a@x") "m").message = expiredCertificateMessage
    ∧ (verifyMessageSignature (exEnvWith exEnvelopeExpired (fun _ => Except.ok (some true)))
        (exMsgFrom "a@x") "m").success = false :=
  c3_certificate_expiry_rejection (exEnvWith exEnvelopeExpired (fun _ => Except.ok (some true)))
    (exMsgFrom "a@x") "m" exEnvelopeExpired exExpiredCert
    (by decide) (by decide) rfl (by decide) (by decide)

/-- C4 (amended): failing the envelope check — root content type a
SUBSTRING of "multipart/signed", protocol parameter strictly equal to
application/pkcs7-signature, micalg an exact member of the fixed set, root
with child nodes, signature node present with an allowed content type —
yields `CANNOT_VERIFY`, success false, empty signer, the not-signed
message, and no raised error (the result is total). -/
theorem c4_envelope_rejection (env : Env) (msg : ParsedMessage) (mailId : String)
    (h : isValidSmimeEmail msg.rootNode msg.signatureNode = false) :
    verifyMessageSignature env msg mailId =
      { mailId := mailId, success := false, code := some ResultCode.CANNOT_VERIFY,
        message := "Message is not digitally signed.", signer := some "" } :=
  verify_invalid_envelope env msg mailId h

theorem c4_envelope_rejection_witness :
    verifyMessageSignature exEnvBadAsn1 exPlainMsg "m" =
      { mailId := "m", success := false, code := some ResultCode.CANNOT_VERIFY,
        message := "Message is not digitally signed.", signer := some "" } :=
  c4_envelope_rejection exEnvBadAsn1 exPlainMsg "m" (by decide)

/-- C4 (counterexample): a message whose root content type is the bare
string "multipart" — which FAILS the claim's condition "root content type
multipart/signed" — nevertheless passes the envelope check (the service
runs a substring search against the constant), and with an undecodable
signature blob the verdict is `FRAUD_WARNING`, not the claimed
`CANNOT_VERIFY` / "Message is not digitally signed.". -/
theorem c4_substring_counterexample :
    isValidSmimeEmail exMsgSubstringType.rootNode exMsgSubstringType.signatureNode = true
    ∧ exMsgSubstringType.rootNode.contentType.map (fun ct => ct.value) = some "multipart"
    ∧ "multipart" ≠ "multipart/signed"
    ∧ (verifyMessageSignature exEnvBadAsn1 exMsgSubstringType "m").code
        = some ResultCode.FRAUD_WARNING
    ∧ (verifyMessageSignature exEnvBadAsn1 exMsgSubstringType "m").message
        ≠ "Message is not digitally signed." := by
  decide

/-- C5: with a well-formed envelope, failure of the ASN.1 BER decode
(parser offset -1) or of the CMS ContentInfo/SignedData interpretation
yields exactly the `FRAUD_WARNING` / invalid-digital-signature result —
never `CANNOT_VERIFY`, never a raised error. -/
theorem c5_malformed_signature (env : Env) (msg : ParsedMessage) (mailId : String)
    (hvalid : isValidSmimeEmail msg.rootNode msg.signatureNode = true)
    (hdec : env.asn1Offset = -1 ∨ env.cmsResult = none) :
    verifyMessageSignature env msg mailId =
      { mailId := mailId, success := false, code := some ResultCode.FRAUD_WARNING,
        message := "Fraud warning: Invalid digital signature.", signer := some "" } :=
  verify_decode_failure env msg mailId hvalid hdec

theorem c5_malformed_signature_witness :
    verifyMessageSignature exEnvBadAsn1 (exMsgFrom "a@x") "m" =
      { mailId := "m", success := false, code := some ResultCode.FRAUD_WARNING,
        message := "Fraud warning: Invalid digital signature.", signer := some "" } :=
  c5_malformed_signature exEnvBadAsn1 (exMsgFrom "a@x") "m" (by decide) (Or.inl rfl)

/-- C2: with a decoded, temporally valid envelope, the cryptographic
verification step distinguishes its three outcomes: resolution with `true`
continues to the identity check; resolution with `false` yields
`FRAUD_WARNING` with the signature-failure message; rejection yields
`CANNOT_VERIFY` with the unknown-error message — an explicit false result
and an inability to evaluate map to different codes. -/
theorem c2_crypto_three_outcomes (env : Env) (msg : ParsedMessage) (mailId : String)
    (cms : SignedData)
    (hvalid : isValidSmimeEmail msg.rootNode msg.signatureNode = true)
    (hoff : env.asn1Offset ≠ -1)
    (hcms : env.cmsResult = some cms)
    (hexp : isAnyCertificateExpired cms env.expirationDateMarginHours env.now = false) :
    (env.cryptoVerify (crlfCanonicalize msg.node1raw) = .ok (some true) →
        verifyMessageSignature env msg mailId =
          identityCheckStage msg (fetchSignerEmail cms env.certificateTypeForSignerEmail)
            { getResultPrototype with
                mailId := mailId,
                signer := fetchSignerEmail cms env.certificateTypeForSignerEmail })
    ∧ (env.cryptoVerify (crlfCanonicalize msg.node1raw) = .ok (some false) →
        (verifyMessageSignature env msg mailId).code = some ResultCode.FRAUD_WARNING
        ∧ (verifyMessageSignature env msg mailId).message =
            "Fraud warning: Message failed verification with signature."
        ∧ (verifyMessageSignature env msg mailId).success = false)
    ∧ (∀ e : Unit, env.cryptoVerify (crlfCanonicalize msg.node1raw) = .error e →
        (verifyMessageSignature env msg mailId).code = some ResultCode.CANNOT_VERIFY
        ∧ (verifyMessageSignature env msg mailId).message =
            "Message cannot be verified: Unknown error."
        ∧ (verifyMessageSignature env msg mailId).success = false) := by
  rw [verify_unfold env msg mailId cms hvalid hoff hcms, if_neg (by simp [hexp])]
  refine ⟨fun h => ?_, fun h => ?_, fun e h => ?_⟩
  · rw [h]; rfl
  · rw [h]; exact ⟨rfl, rfl, rfl⟩
  · rw [h]; exact ⟨rfl, rfl, rfl⟩

theorem c2_crypto_three_outcomes_witness :
    (verifyMessageSignature (exEnvWith exEnvelope (fun _ => Except.error ()))
        (exMsgFrom "a@x") "m").code = some ResultCode.CANNOT_VERIFY
    ∧ (verifyMessageSignature (exEnvWith exEnvelope (fun _ => Except.error ()))
        (exMsgFrom "a@x") "m").message = "Message cannot be verified: Unknown error."
    ∧ (verifyMessageSignature (exEnvWith exEnvelope (fun _ => Except.error ()))
        (exMsgFrom "a@x") "m").success = false :=
  (c2_crypto_three_outcomes (exEnvWith exEnvelope (fun _ => Except.error ()))
    (exMsgFrom "a@x") "m" exEnvelope (by decide) (by decide) rfl (by decide)).2.2 () rfl

/-- C10: a cryptographic verification that resolves with `undefined`
(neither `true` nor `false`) is NOT treated as a failure: the pipeline
proceeds to the identity check and, when the From address matches, returns
`VERIFICATION_OK` with `success = true`. -/
theorem c10_undefined_resolution (env : Env) (msg : ParsedMessage) (mailId : String)
    (cms : SignedData)
    (hvalid : isValidSmimeEmail msg.rootNode msg.signatureNode = true)
    (hoff : env.asn1Offset ≠ -1)
    (hcms : env.cmsResult = some cms)
    (hexp : isAnyCertificateExpired cms env.expirationDateMarginHours env.now = false)
    (hcv : env.cryptoVerify (crlfCanonicalize msg.node1raw) = .ok none)
    (hfrom : isFromAddressCorrect msg (fetchSignerEmail cms env.certificateTypeForSignerEmail)
        = .ok true) :
    isVerificationFailed none = false
    ∧ (verifyMessageSignature env msg mailId).code = some ResultCode.VERIFICATION_OK
    ∧ (verifyMessageSignature env msg mailId).success = true := by
  rw [verify_unfold env msg mailId cms hvalid hoff hcms, if_neg (by simp [hexp]), hcv]
  refine ⟨rfl, ?_, ?_⟩ <;>
    simp [thenCallback, identityCheckStage, isVerificationFailed, hfrom]

theorem c10_undefined_resolution_witness :
    isVerificationFailed none = false
    ∧ (verifyMessageSignature (exEnvWith exEnvelope (fun _ => Except.ok none))
        (exMsgFrom "a@x") "m").code = some ResultCode.VERIFICATION_OK
    ∧ (verifyMessageSignature (exEnvWith exEnvelope (fun _ => Except.ok none))
        (exMsgFrom "a@x") "m").success = true :=
  c10_undefined_resolution (exEnvWith exEnvelope (fun _ => Except.ok none))
    (exMsgFrom "a@x") "m" exEnvelope (by decide) (by decide) rfl (by decide) rfl rfl

theorem foldl_lastEmail (emailType : String) :
    ∀ (l : List AttributeTypeAndValue) (a : Option String),
      l.foldl (fun acc tv => if tv.type == emailType then some tv.value else acc) a
        = match l.reverse.find? (fun tv => tv.type == emailType) with
          | some tv => some tv.value
          | none => a := by
  intro l
  induction l with
  | nil => intro a; rfl
  | cons tv rest ih =>
      intro a
      rw [List.foldl_cons, ih, List.reverse_cons, List.find?_append]
      cases hfind : rest.reverse.find? (fun tv => tv.type == emailType) with
      | some x => rfl
      | none =>
          cases hpt : (tv.type == emailType) <;>
            simp [List.find?, hpt, Option.or]

theorem fetchSignerEmail_eq_lastEmailAttr (sd : SignedData) (t : String) :
    fetchSignerEmail sd t = lastEmailAttr sd t := by
  have hflat : ∀ (certs : List Certificate) (a : Option String),
      certs.foldl
        (fun acc cert =>
          cert.subject.foldl
            (fun acc2 tv => if tv.type == t then some tv.value else acc2) acc) a
        = (certs.foldr (fun c acc => c.subject ++ acc) []).foldl
            (fun acc tv => if tv.type == t then some tv.value else acc) a := by
    intro certs
    induction certs with
    | nil => intro a; rfl
    | cons c rest ih =>
        intro a
        rw [List.foldl_cons, ih, List.foldr_cons, List.foldl_append]
  unfold fetchSignerEmail lastEmailAttr allSubjectAttrs
  rw [hflat, foldl_lastEmail]
  cases h : (sd.certificates.foldr (fun c acc => c.subject ++ acc) []).reverse.find?
      (fun tv => tv.type == t) <;> simp [h]

/-- C1 (amended): after a cryptographic verification that resolves `true`,
the identity check compares — by exact, case-sensitive string equality —
the address of the first parsed mailbox of the first From header against
the signer email extracted by scanning ALL certificates' subject
attributes, the LAST attribute whose type equals the configured
email-address attribute type winning; on mismatch the result is
`FRAUD_WARNING` with the From-mismatch message and `success = false`. -/
theorem c1_identity_mismatch (env : Env) (msg : ParsedMessage) (mailId : String)
    (cms : SignedData)
    (hvalid : isValidSmimeEmail msg.rootNode msg.signatureNode = true)
    (hoff : env.asn1Offset ≠ -1)
    (hcms : env.cmsResult = some cms)
    (hexp : isAnyCertificateExpired cms env.expirationDateMarginHours env.now = false)
    (hcv : env.cryptoVerify (crlfCanonicalize msg.node1raw) = .ok (some true))
    (hfrom : isFromAddressCorrect msg (fetchSignerEmail cms env.certificateTypeForSignerEmail)
        = .ok false) :
    (verifyMessageSignature env msg mailId).code = some ResultCode.FRAUD_WARNING
    ∧ (verifyMessageSignature env msg mailId).message = fromMismatchMessage
    ∧ (verifyMessageSignature env msg mailId).success = false
    ∧ (verifyMessageSignature env msg mailId).signer
        = fetchSignerEmail cms env.certificateTypeForSignerEmail
    ∧ fetchSignerEmail cms env.certificateTypeForSignerEmail
        = lastEmailAttr cms env.certificateTypeForSignerEmail := by
  rw [verify_unfold env msg mailId cms hvalid hoff hcms, if_neg (by simp [hexp]), hcv]
  refine ⟨?_, ?_, ?_, ?_, fetchSignerEmail_eq_lastEmailAttr cms _⟩ <;>
    simp [thenCallback, identityCheckStage, isVerificationFailed, hfrom]

theorem c1_identity_mismatch_witness :
    (verifyMessageSignature (exEnvWith exEnvelope (fun _ => Except.ok (some true)))
        (exMsgFrom "zzz@x") "m").code = some ResultCode.FRAUD_WARNING
    ∧ (verifyMessageSignature (exEnvWith exEnvelope (fun _ => Except.ok (some true)))
        (exMsgFrom "zzz@x") "m").message = fromMismatchMessage
    ∧ (verifyMessageSignature (exEnvWith exEnvelope (fun _ => Except.ok (some true)))
        (exMsgFrom "zzz@x") "m").success = false
    ∧ (verifyMessageSignature (exEnvWith exEnvelope (fun _ => Except.ok (some true)))
        (exMsgFrom "zzz@x") "m").signer
        = fetchSignerEmail exEnvelope emailAttributeType
    ∧ fetchSignerEmail exEnvelope emailAttributeType
        = lastEmailAttr exEnvelope emailAttributeType :=
  c1_identity_mismatch (exEnvWith exEnvelope (fun _ => Except.ok (some true)))
    (exMsgFrom "zzz@x") "m" exEnvelope (by decide) (by decide) rfl (by decide) rfl rfl

/-- C1 (counterexample): in a two-certificate envelope whose FIRST
certificate's email attribute equals the From address exactly, the service
nevertheless raises the From-mismatch `FRAUD_WARNING`, because
`fetchSignerEmail` returns the email of the LAST matching attribute (here
the second certificate's), not the first certificate's. -/
theorem c1_first_certificate_counterexample :
    exEnvelopeTwo.certificates.head? = some (exCertOf "a@x")
    ∧ (exCertOf "a@x").subject = [{ type := emailAttributeType, value := "a@x" }]
    ∧ (exMsgFrom "a@x").fromHeaders.head? = some { value := [{ address := some "a@x" }] }
    ∧ fetchSignerEmail exEnvelopeTwo emailAttributeType = some "b@x"
    ∧ (verifyMessageSignature (exEnvWith exEnvelopeTwo (fun _ => Except.ok (some true)))
        (exMsgFrom "a@x") "m").code = some ResultCode.FRAUD_WARNING
    ∧ (verifyMessageSignature (exEnvWith exEnvelopeTwo (fun _ => Except.ok (some true)))
        (exMsgFrom "a@x") "m").message = fromMismatchMessage
    ∧ (verifyMessageSignature (exEnvWith exEnvelopeTwo (fun _ => Except.ok (some true)))
        (exMsgFrom "a@x") "m").success = false := by
  decide

/-- C6 (amended): `success = true` implies `code = VERIFICATION_OK`; the
`signer` field keeps the default empty string on structural rejection, on
decode failure AND on certificate expiry (the expiry branch returns before
`result.signer` is assigned), and is assigned the extracted signer email
exactly when the cryptographic verification resolved (covering
`VERIFICATION_OK` and the signature-mismatch / identity-mismatch
`FRAUD_WARNING` results). -/
theorem c6_result_invariants (env : Env) (msg : ParsedMessage) (mailId : String) :
    ((verifyMessageSignature env msg mailId).success = true →
        (verifyMessageSignature env msg mailId).code = some ResultCode.VERIFICATION_OK)
    ∧ (isValidSmimeEmail msg.rootNode msg.signatureNode = false →
        (verifyMessageSignature env msg mailId).signer = some "")
    ∧ (isValidSmimeEmail msg.rootNode msg.signatureNode = true →
        env.asn1Offset = -1 ∨ env.cmsResult = none →
        (verifyMessageSignature env msg mailId).signer = some "")
    ∧ (∀ cms : SignedData,
        isValidSmimeEmail msg.rootNode msg.signatureNode = true →
        env.asn1Offset ≠ -1 → env.cmsResult = some cms →
        isAnyCertificateExpired cms env.expirationDateMarginHours env.now = true →
        (verifyMessageSignature env msg mailId).signer = some ""
        ∧ (verifyMessageSignature env msg mailId).code = some ResultCode.FRAUD_WARNING)
    ∧ (∀ (cms : SignedData) (v : Option Bool),
        isValidSmimeEmail msg.rootNode msg.signatureNode = true →
        env.asn1Offset ≠ -1 → env.cmsResult = some cms →
        isAnyCertificateExpired cms env.expirationDateMarginHours env.now = false →
        env.cryptoVerify (crlfCanonicalize msg.node1raw) = .ok v →
        (verifyMessageSignature env msg mailId).signer
          = fetchSignerEmail cms env.certificateTypeForSignerEmail) := by
  refine ⟨?_, ?_, ?_, ?_, ?_⟩
  · intro hs
    by_cases hval : isValidSmimeEmail msg.rootNode msg.signatureNode = false
    · rw [verify_invalid_envelope env msg mailId hval] at hs
      exact absurd hs (by simp)
    · have hval2 : isValidSmimeEmail msg.rootNode msg.signatureNode = true := by
        revert hval; cases isValidSmimeEmail msg.rootNode msg.signatureNode <;> simp
      by_cases hoff : env.asn1Offset = -1
      · rw [verify_decode_failure env msg mailId hval2 (Or.inl hoff)] at hs
        exact absurd hs (by simp)
      · cases hcms : env.cmsResult with
        | none =>
            rw [verify_decode_failure env msg mailId hval2 (Or.inr hcms)] at hs
            exact absurd hs (by simp)
        | some cms =>
            rw [verify_unfold env msg mailId cms hval2 hoff hcms] at hs ⊢
            by_cases hexp :
                isAnyCertificateExpired cms env.expirationDateMarginHours env.now = true
            · rw [if_pos hexp] at hs
              exact absurd hs (by simp)
            · rw [if_neg hexp] at hs ⊢
              cases hcv : env.cryptoVerify (crlfCanonicalize msg.node1raw) with
              | error e => rw [hcv] at hs; exact absurd hs (by simp)
              | ok v => rw [hcv] at hs; exact thenCallback_success_code msg _ _ v hs
  · intro hval
    rw [verify_invalid_envelope env msg mailId hval]
  · intro hval hdec
    rw [verify_decode_failure env msg mailId hval hdec]
  · intro cms hval hoff hcms hexp
    rw [verify_unfold env msg mailId cms hval hoff hcms, if_pos hexp]
    exact ⟨rfl, rfl⟩
  · intro cms v hval hoff hcms hexp hcv
    rw [verify_unfold env msg mailId cms hval hoff hcms, if_neg (by simp [hexp]), hcv]
    exact thenCallback_signer msg _ _ v

theorem c6_result_invariants_witness :
    (verifyMessageSignature (exEnvWith exEnvelopeExpired (fun _ => Except.ok (some false)))
        (exMsgFrom "a@x") "m").signer = some ""
    ∧ (verifyMessageSignature (exEnvWith exEnvelopeExpired (fun _ => Except.ok (some false)))
        (exMsgFrom "a@x") "m").code = some ResultCode.FRAUD_WARNING :=
  (c6_result_invariants (exEnvWith exEnvelopeExpired (fun _ => Except.ok (some false)))
    (exMsgFrom "a@x") "m").2.2.2.1 exEnvelopeExpired (by decide) (by decide) rfl (by decide)

/-- C6 (counterexample): on certificate expiry after a successful decode —
one of the claim's "post-decode failure" cases — the result carries
`FRAUD_WARNING` but `signer` is the EMPTY default, even though a signer
email was extractable from the certificate: the expiry branch returns
before `result.signer` is assigned. -/
theorem c6_expiry_empty_signer_counterexample :
    (verifyMessageSignature (exEnvWith exEnvelopeExpired (fun _ => Except.ok (some true)))
        (exMsgFrom "a@x") "m").code = some ResultCode.FRAUD_WARNING
    ∧ (verifyMessageSignature (exEnvWith exEnvelopeExpired (fun _ => Except.ok (some true)))
        (exMsgFrom "a@x") "m").message = expiredCertificateMessage
    ∧ (verifyMessageSignature (exEnvWith exEnvelopeExpired (fun _ => Except.ok (some true)))
        (exMsgFrom "a@x") "m").signer = some ""
    ∧ fetchSignerEmail exEnvelopeExpired emailAttributeType = some "a@x" := by
  decide

theorem crlfOkFrom_replaceLf (l : List Char) :
    ∀ prev : Char, crlfOkFrom prev (replaceLfWithCrlf l) = true := by
  induction l with
  | nil => intro prev; rfl
  | cons c rest ih =>
      intro prev
      by_cases hc : c = '\n'
      · subst hc
        simp [replaceLfWithCrlf, crlfOkFrom, ih]
      · simp [replaceLfWithCrlf, hc, crlfOkFrom, ih]

/-- C7 (amended): the canonicalization replaces every LF by CR LF, so the
byte sequence handed to the signature verifier always uses CRLF line
endings in the sense that no LF appears without an immediately preceding
CR; but the transform is applied to every LF unconditionally, so input
already using CRLF is rewritten to CR CR LF rather than preserved. -/
theorem c7_canonicalized_line_endings (s : String) :
    crlfLineEndings (crlfCanonicalize s).data = true := by
  show crlfLineEndings (replaceLfWithCrlf s.data) = true
  cases hd : s.data with
  | nil => rfl
  | cons c rest =>
      by_cases hc : c = '\n'
      · subst hc
        simp [replaceLfWithCrlf, crlfLineEndings, crlfOkFrom, crlfOkFrom_replaceLf]
      · simp [replaceLfWithCrlf, hc, crlfLineEndings, crlfOkFrom_replaceLf]

/-- C7 (counterexample): a body already terminated by CRLF is not left
with a single CRLF terminator — it is corrupted to CR CR LF. -/
theorem c7_crlf_corruption_counterexample :
    crlfCanonicalize "a\r\n" = "a\r\r\n" ∧ crlfCanonicalize "a\r\n" ≠ "a\r\n" := by
  decide

theorem jsArrayIndexOfAux_ne_neg_one (m : String) :
    ∀ (l : List String) (i : Int), 0 ≤ i →
      (jsArrayIndexOfAux (some m) l i ≠ -1 ↔ m ∈ l) := by
  intro l
  induction l with
  | nil =>
      intro i hi
      simp [jsArrayIndexOfAux]
  | cons a rest ih =>
      intro i hi
      simp only [jsArrayIndexOfAux]
      cases hbeq : (some m == some a) with
      | true =>
          have hma : m = a := by simpa using hbeq
          simp only [if_pos rfl, if_true]
          constructor
          · intro _; exact hma ▸ List.mem_cons_self a rest
          · intro _; omega
      | false =>
          have hne : m ≠ a := by simpa using hbeq
          simp only [Bool.false_eq_true, if_false]
          rw [ih (i + 1) (by omega)]
          simp [List.mem_cons, hne]

/-- C8 (amended): the micalg envelope condition passes if and only if the
`micalg` content-type parameter is an EXACT, case-sensitive member of the
fixed set md5, sha-1, sha-224, sha-256, sha-384, sha-512, unknown; other
casings of a member (such as "SHA-256") are rejected. -/
theorem c8_micalg_exact_match (ps : ContentTypeParams) (m : String)
    (hm : ps.micalg = some m) :
    isRootNodeContentTypeMicalgCorrect ps = true ↔
      m ∈ rootNodeContentTypeMessageIntegrityCheckAlgorithms := by
  unfold isRootNodeContentTypeMicalgCorrect jsArrayIndexOf
  rw [hm, bne_iff_ne]
  exact jsArrayIndexOfAux_ne_neg_one m rootNodeContentTypeMessageIntegrityCheckAlgorithms 0
    (by omega)

theorem c8_micalg_exact_match_witness :
    isRootNodeContentTypeMicalgCorrect { protocol := none, micalg := some "sha-256" } = true ↔
      "sha-256" ∈ rootNodeContentTypeMessageIntegrityCheckAlgorithms :=
  c8_micalg_exact_match { protocol := none, micalg := some "sha-256" } "sha-256" rfl

/-- C8 (counterexample): "SHA-256" is a casing variant of the set member
"sha-256", yet the micalg check REJECTS it — the comparison is
case-sensitive `Array.prototype.indexOf`, not case-insensitive. -/
theorem c8_uppercase_micalg_counterexample :
    isRootNodeContentTypeMicalgCorrect { protocol := none, micalg := some "SHA-256" } = false
    ∧ "sha-256" ∈ rootNodeContentTypeMessageIntegrityCheckAlgorithms
    ∧ "SHA-256" ∉ rootNodeContentTypeMessageIntegrityCheckAlgorithms := by
  decide

/-- C9: the service class holds no instance state; a verification call is
a pure function of its own input, so two calls with identical raw message,
mailId and environment produce identical results, and the result of the
k-th call of a session depends only on the k-th call's input, not on any
earlier or later call. -/
theorem c9_call_independence :
    (∀ c : CallInput, runSession [c, c] = [runCall c, runCall c])
    ∧ ∀ (s1 s2 : List CallInput) (k : Nat), s1[k]? = s2[k]? →
        (runSession s1)[k]? = (runSession s2)[k]? := by
  constructor
  · intro c; rfl
  · intro s1 s2 k h
    simp [runSession, List.getElem?_map, h]

theorem c9_call_independence_witness :
    (runSession [⟨exEnvBadAsn1, exPlainMsg, "m"⟩, ⟨exEnvBadAsn1, exPlainMsg, "m"⟩])[0]?
      = (runSession [⟨exEnvBadAsn1, exPlainMsg, "m"⟩])[0]? :=
  c9_call_independence.2 [⟨exEnvBadAsn1, exPlainMsg, "m"⟩, ⟨exEnvBadAsn1, exPlainMsg, "m"⟩]
    [⟨exEnvBadAsn1, exPlainMsg, "m"⟩] 0 rfl

end RocketSmime
